import Mathlib

/-!
Verification of the SQLite connection-hook and cache-tuning layer
(`internal/db/sqlite/db_open_cgo.go`).

The Go source registers two database drivers (`sqlite3_main`, `sqlite3_folder`)
whose connect hooks apply a static list of PRAGMA directives via `conn.Exec`
and, for the folder role only, call `tuneFolderCacheSize`, which queries the
`sqlite_stat1` statistics table for the row counts of `files` and `blocklists`,
computes `min(128 * max(files_count, blocklists_count), folderMaxCacheSize)`,
divides by 1000 (Go integer division truncates toward zero) and, when the
result exceeds 2000, executes `PRAGMA cache_size = -<kB>`.

The embedding models the engine (go-sqlite3) non-deterministically: an oracle
fixes the outcome of each engine primitive (`Exec`, `Prepare`, `Query`,
`Next`) and the hook body is a pure function of that oracle producing the
trace of engine calls plus the hook's returned error.  Go `int64` arithmetic
wraps on overflow, which `wrap64` models; `folderMaxCacheSize`,
`applicationIDMain` and `applicationIDFolder` are constants declared outside
this file's source and are taken as parameters.
-/

namespace SyncthingSqlite

/-- Go `int64` wrap-around: reduce an unbounded integer to the representative
in `[-2^63, 2^63)`, as Go's two's-complement multiplication does. -/
def wrap64 (x : Int) : Int :=
  (x + 9223372036854775808) % 18446744073709551616 - 9223372036854775808

/-- Constant `filesRowIndexCost = 128` from the source: estimated index bytes
per row (832 bits of indexed columns rounded up to 1024 bits). -/
def filesRowIndexCost : Int := 128

/-- A value fetched through the driver: Go's `driver.Value` either converts to
`int64` (the `results[0].(int64)` type assertion succeeds) or it does not. -/
inductive DriverValue where
  | int64 (i : Int)
  | other
deriving DecidableEq

/-- Outcome of the engine primitives in one per-table estimation step of
`tuneFolderCacheSize`: `conn.Prepare` may fail, then `stmt.Query` may fail,
then `rows.Next` may fail, or a row is fetched holding a driver value. -/
inductive TableOutcome where
  | prepareErr
  | queryErr
  | fetchErr
  | fetchOk (v : DriverValue)
deriving DecidableEq

/-- One engine call made by the hook, as recorded in the call trace.  The
`ok` flags record the outcome the oracle chose for the call; a statement
handle exists only after `prepareStmt _ true`, a cursor only after
`queryRows true`. -/
inductive Event where
  | exec (stmt : String) (ok : Bool)
  | prepareStmt (query : String) (ok : Bool)
  | queryRows (ok : Bool)
  | fetchRow (ok : Bool)
  | rowsClose
  | stmtClose
deriving DecidableEq

/-- Single-quote character, used inside the SQL text of the statistics
query. -/
def sq : String := String.singleton (Char.ofNat 39)

/-- The `count_query` format string of `tuneFolderCacheSize`, with the `%s`
placeholder substituted by the table name (`fmt.Sprintf(count_query, table)`). -/
def countQuery (table : String) : String :=
  "SELECT CAST(SUBSTR(stat, 1, INSTR(stat, " ++ sq ++ " " ++ sq ++
    ") - 1) AS INTEGER) FROM sqlite_stat1 WHERE tbl = " ++ sq ++ table ++ sq ++
    " LIMIT 1"

/-- One iteration of the `for _, table := range []string{"files", "blocklists"}`
loop in `tuneFolderCacheSize`: returns the count obtained for the table
(`none` when any step failed, matching the `continue` branches that leave the
corresponding counter at zero) together with the engine calls made.  Mirrors
the source line by line: on prepare error only the failed prepare happened; on
query error the statement was prepared but `stmt.Close()` is not called; on
fetch error neither `rows.Close()` nor `stmt.Close()` is called; on a fetched
row the code runs `rows.Close()` then `stmt.Close()` and only then attempts
the `int64` type assertion. -/
def tableStep (table : String) (o : TableOutcome) : Option Int × List Event :=
  match o with
  | .prepareErr => (none, [.prepareStmt (countQuery table) false])
  | .queryErr => (none, [.prepareStmt (countQuery table) true, .queryRows false])
  | .fetchErr =>
      (none, [.prepareStmt (countQuery table) true, .queryRows true, .fetchRow false])
  | .fetchOk v =>
      ((match v with | .int64 i => some i | .other => none),
       [.prepareStmt (countQuery table) true, .queryRows true, .fetchRow true,
        .rowsClose, .stmtClose])

/-- The oracle for the two statistics queries of one folder connection: the
outcome of the `files` step and of the `blocklists` step. -/
structure FolderStatOutcomes where
  files : TableOutcome
  blocklists : TableOutcome
deriving DecidableEq

/-- The `files_count` variable after the loop: the fetched `int64` when every
step for table `files` succeeded, otherwise its initial value `0`. -/
def filesCount (o : FolderStatOutcomes) : Int :=
  ((tableStep "files" o.files).1).getD 0

/-- The `blocklists_count` variable after the loop. -/
def blocklistsCount (o : FolderStatOutcomes) : Int :=
  ((tableStep "blocklists" o.blocklists).1).getD 0

/-- Source: `count_estimate := max(files_count, blocklists_count)`. -/
def countEstimate (o : FolderStatOutcomes) : Int :=
  max (filesCount o) (blocklistsCount o)

/-- Source: `target_cache_size = 128 * count_estimate` followed by
`target_cache_size = min(target_cache_size, folderMaxCacheSize)`.  The
multiplication is Go `int64` arithmetic, hence the wrap. -/
def targetCacheSizeBytes (folderMaxCacheSize : Int) (o : FolderStatOutcomes) : Int :=
  min (wrap64 (128 * countEstimate o)) folderMaxCacheSize

/-- Source: `target_cache_size /= 1000` — Go division truncates toward zero,
which is `Int.tdiv`. -/
def targetCacheSizeKB (folderMaxCacheSize : Int) (o : FolderStatOutcomes) : Int :=
  Int.tdiv (targetCacheSizeBytes folderMaxCacheSize o) 1000

/-- The dynamically built directive
`fmt.Sprintf("PRAGMA cache_size = -%d", target_cache_size)`. -/
def cachePragma (k : Int) : String :=
  "PRAGMA cache_size = -" ++ toString k

/-- Engine-call trace of `tuneFolderCacheSize`: the two per-table estimation
steps in source order, then — only when the kilobyte target exceeds 2000 —
the `conn.Exec` of the cache-size directive.  `execOk` is the oracle for
`conn.Exec` outcomes (the source discards them). -/
def tuneFolderCacheSizeEvents (execOk : String → Bool) (folderMaxCacheSize : Int)
    (o : FolderStatOutcomes) : List Event :=
  (tableStep "files" o.files).2 ++ (tableStep "blocklists" o.blocklists).2 ++
    (if 2000 < targetCacheSizeKB folderMaxCacheSize o then
      [.exec (cachePragma (targetCacheSizeKB folderMaxCacheSize o))
        (execOk (cachePragma (targetCacheSizeKB folderMaxCacheSize o)))]
    else [])

/-- The `folder_pragmas` list from the source, parameterised by the
`applicationIDFolder` constant declared outside this source file. -/
def folder_pragmas (applicationIDFolder : Int) : List String :=
  ["journal_mode = WAL",
   "optimize = 0x10002",
   "auto_vacuum = INCREMENTAL",
   "application_id = " ++ toString applicationIDFolder,
   "busy_timeout = 5000",
   "temp_store = MEMORY",
   "synchronous = NORMAL",
   "journal_size_limit = 8388608",
   "cache_spill = FALSE"]

/-- The `main_pragmas` list from the source, parameterised by the
`applicationIDMain` constant declared outside this source file. -/
def main_pragmas (applicationIDMain : Int) : List String :=
  ["journal_mode = WAL",
   "optimize = 0x10002",
   "auto_vacuum = INCREMENTAL",
   "application_id = " ++ toString applicationIDMain]

/-- Source: `pragma_stmt := fmt.Sprintf("PRAGMA %s", pragma)`. -/
def pragmaStmt (p : String) : String := "PRAGMA " ++ p

/-- The `ConnectHook` registered by `registerFolderDriver`: `conn.Exec` each
folder pragma in order (outcomes ignored), call `tuneFolderCacheSize`, and
`return nil`.  Result: the engine-call trace and the hook's returned error. -/
def folderConnectHook (applicationIDFolder : Int) (execOk : String → Bool)
    (folderMaxCacheSize : Int) (o : FolderStatOutcomes) : List Event × Option String :=
  ((folder_pragmas applicationIDFolder).map
      (fun p => Event.exec (pragmaStmt p) (execOk (pragmaStmt p))) ++
    tuneFolderCacheSizeEvents execOk folderMaxCacheSize o,
   none)

/-- The `ConnectHook` registered by `registerMainDriver`: `conn.Exec` each
main pragma in order (outcomes ignored) and `return nil`. -/
def mainConnectHook (applicationIDMain : Int) (execOk : String → Bool) :
    List Event × Option String :=
  ((main_pragmas applicationIDMain).map
      (fun p => Event.exec (pragmaStmt p) (execOk (pragmaStmt p))),
   none)

/-- The statements passed to `conn.Exec` along a trace, in order. -/
def execStmts (evs : List Event) : List String :=
  evs.filterMap (fun e => match e with | .exec s _ => some s | _ => none)

/-- Number of statement handles created along a trace (successful
`conn.Prepare` calls). -/
def stmtsOpened (evs : List Event) : Nat :=
  (evs.filter (fun e => match e with | .prepareStmt _ true => true | _ => false)).length

/-- Number of `stmt.Close()` calls along a trace. -/
def stmtsClosed (evs : List Event) : Nat :=
  (evs.filter (fun e => match e with | .stmtClose => true | _ => false)).length

/-- Number of result cursors created along a trace (successful `stmt.Query`
calls). -/
def cursorsOpened (evs : List Event) : Nat :=
  (evs.filter (fun e => match e with | .queryRows true => true | _ => false)).length

/-- Number of `rows.Close()` calls along a trace. -/
def cursorsClosed (evs : List Event) : Nat :=
  (evs.filter (fun e => match e with | .rowsClose => true | _ => false)).length

/-- Statement handles still open when the trace ends. -/
def openStmtsAfter (evs : List Event) : Int :=
  (stmtsOpened evs : Int) - (stmtsClosed evs : Int)

/-- Result cursors still open when the trace ends. -/
def openCursorsAfter (evs : List Event) : Int :=
  (cursorsOpened evs : Int) - (cursorsClosed evs : Int)

/-- The wrap of an integer already inside the signed 64-bit range is the
integer itself. -/
theorem wrap64_eq_self (x : Int) (h1 : -9223372036854775808 ≤ x)
    (h2 : x < 9223372036854775808) : wrap64 x = x := by
  unfold wrap64
  omega

/-- Truncating division by 1000 of a nonpositive integer is nonpositive. -/
theorem tdiv1000_nonpos {a : Int} (h : a ≤ 0) : Int.tdiv a 1000 ≤ 0 := by
  have h2 := Int.tdiv_nonneg (a := -a) (b := 1000) (by omega) (by omega)
  rw [Int.neg_tdiv] at h2
  omega

/-- Truncating division by 1000 is monotone on nonnegative integers. -/
theorem tdiv1000_mono {a b : Int} (ha : 0 ≤ a) (hab : a ≤ b) :
    Int.tdiv a 1000 ≤ Int.tdiv b 1000 := by
  rw [Int.tdiv_eq_ediv ha (by omega), Int.tdiv_eq_ediv (ha.trans hab) (by omega)]
  omega

/-- Any integer at most `2000896 = 128 * 15632` has a truncated kilobyte value
at most 2000. -/
theorem tdiv1000_le_2000 {a : Int} (h : a ≤ 2000896) : Int.tdiv a 1000 ≤ 2000 := by
  rcases le_or_lt a 0 with h0 | h0
  · exact (tdiv1000_nonpos h0).trans (by omega)
  · have := tdiv1000_mono (a := a) (b := 2000896) (by omega) h
    have h2 : Int.tdiv 2000896 1000 = 2000 := by decide
    omega

/-- The per-table estimation step issues no `conn.Exec` call. -/
theorem execStmts_tableStep (t : String) (o : TableOutcome) :
    execStmts (tableStep t o).2 = [] := by
  cases o <;> rfl

/-- Executed statements of a concatenated trace. -/
theorem execStmts_append (l1 l2 : List Event) :
    execStmts (l1 ++ l2) = execStmts l1 ++ execStmts l2 :=
  List.filterMap_append l1 l2 _

/-- The `conn.Exec` statements of the cache-tuning trace: the single dynamic
cache-size directive when the kilobyte target clears the 2000 threshold, and
nothing otherwise. -/
theorem execStmts_tune (execOk : String → Bool) (folderMaxCacheSize : Int)
    (o : FolderStatOutcomes) :
    execStmts (tuneFolderCacheSizeEvents execOk folderMaxCacheSize o) =
      if 2000 < targetCacheSizeKB folderMaxCacheSize o then
        [cachePragma (targetCacheSizeKB folderMaxCacheSize o)]
      else [] := by
  unfold tuneFolderCacheSizeEvents
  rw [execStmts_append, execStmts_append, execStmts_tableStep, execStmts_tableStep]
  simp only [List.nil_append]
  split <;> rfl

/-- The cache-tuning trace issues a directive exactly when the kilobyte target
exceeds 2000. -/
theorem execStmts_tune_ne_nil_iff (execOk : String → Bool) (folderMaxCacheSize : Int)
    (o : FolderStatOutcomes) :
    execStmts (tuneFolderCacheSizeEvents execOk folderMaxCacheSize o) ≠ [] ↔
      2000 < targetCacheSizeKB folderMaxCacheSize o := by
  rw [execStmts_tune]
  constructor
  · intro h
    by_contra hc
    rw [if_neg hc] at h
    exact h rfl
  · intro h
    rw [if_pos h]
    simp

/-- Mapping a list of statements to `Exec` events contributes exactly those
statements to the trace's executed-statement list. -/
theorem execStmts_exec_map (f : String → String) (g : String → Bool) (l : List String) :
    execStmts (l.map (fun p => Event.exec (f p) (g p))) = l.map f := by
  induction l with
  | nil => rfl
  | cons a t ih =>
      simp only [List.map_cons, execStmts, List.filterMap_cons] at *
      rw [ih]

/-- C1: for a Folder connection whose statistics query yields 100000 for
`files` and 40000 for `blocklists`, the estimator computes
`rowCountEstimate = max 100000 40000 = 100000`,
`targetBytes = 100000 * 128 = 12800000`, converts to `12800` kB, and —
provided `folderMaxCacheSize ≥ 12800000` — since `12800 > 2000` it executes
exactly the directive `PRAGMA cache_size = -12800` on that connection. -/
theorem folder_cache_estimate_100k_40k (folderMaxCacheSize : Int)
    (execOk : String → Bool) (hM : 12800000 ≤ folderMaxCacheSize) :
    countEstimate ⟨.fetchOk (.int64 100000), .fetchOk (.int64 40000)⟩ = 100000 ∧
    targetCacheSizeBytes folderMaxCacheSize
      ⟨.fetchOk (.int64 100000), .fetchOk (.int64 40000)⟩ = 12800000 ∧
    targetCacheSizeKB folderMaxCacheSize
      ⟨.fetchOk (.int64 100000), .fetchOk (.int64 40000)⟩ = 12800 ∧
    execStmts (tuneFolderCacheSizeEvents execOk folderMaxCacheSize
      ⟨.fetchOk (.int64 100000), .fetchOk (.int64 40000)⟩) =
      ["PRAGMA cache_size = -12800"] := by
  have h1 : countEstimate ⟨.fetchOk (.int64 100000), .fetchOk (.int64 40000)⟩ = 100000 := by
    decide
  have h2 : wrap64 (128 * 100000) = 12800000 := by decide
  have hb : targetCacheSizeBytes folderMaxCacheSize
      ⟨.fetchOk (.int64 100000), .fetchOk (.int64 40000)⟩ = 12800000 := by
    unfold targetCacheSizeBytes
    rw [h1, h2]
    omega
  have hk : targetCacheSizeKB folderMaxCacheSize
      ⟨.fetchOk (.int64 100000), .fetchOk (.int64 40000)⟩ = 12800 := by
    unfold targetCacheSizeKB
    rw [hb]
    decide
  refine ⟨h1, hb, hk, ?_⟩
  rw [execStmts_tune, hk]
  decide

/-- Witness for C1 at `folderMaxCacheSize = 12800000`. -/
theorem folder_cache_estimate_100k_40k_witness :
    (12800000 : Int) ≤ 12800000 ∧
    execStmts (tuneFolderCacheSizeEvents (fun _ => true) 12800000
      ⟨.fetchOk (.int64 100000), .fetchOk (.int64 40000)⟩) =
      ["PRAGMA cache_size = -12800"] :=
  ⟨by decide, (folder_cache_estimate_100k_40k 12800000 (fun _ => true) (by decide)).2.2.2⟩

/-- C2 is refuted by the code: at an input where the `files` step fails at
`stmt.Query` and the `blocklists` step fails at `rows.Next`, the trace of
`tuneFolderCacheSize` ends with two statement handles and one result cursor
still open, because the `continue` branches after the query and fetch errors
skip `stmt.Close()` and `rows.Close()`. -/
theorem tuneFolderCacheSize_leaks_handles :
    openStmtsAfter (tuneFolderCacheSizeEvents (fun _ => true) 12800000
      ⟨.queryErr, .fetchErr⟩) = 2 ∧
    openCursorsAfter (tuneFolderCacheSizeEvents (fun _ => true) 12800000
      ⟨.queryErr, .fetchErr⟩) = 1 := by
  decide

/-- C3: when the statistics queries for both tables fail (at the prepare,
query, fetch, or integer-conversion step — i.e. yield no count), the row-count
estimate is 0, the kilobyte target is 0 (the ceiling being nonnegative), the
estimator executes no directive, and the folder connect hook still returns
`nil`. -/
theorem folder_hook_both_queries_fail (applicationIDFolder folderMaxCacheSize : Int)
    (execOk : String → Bool) (o : FolderStatOutcomes)
    (hM : 0 ≤ folderMaxCacheSize)
    (hf : (tableStep "files" o.files).1 = none)
    (hb : (tableStep "blocklists" o.blocklists).1 = none) :
    countEstimate o = 0 ∧
    targetCacheSizeKB folderMaxCacheSize o = 0 ∧
    execStmts (tuneFolderCacheSizeEvents execOk folderMaxCacheSize o) = [] ∧
    (folderConnectHook applicationIDFolder execOk folderMaxCacheSize o).2 = none := by
  have h1 : filesCount o = 0 := by
    unfold filesCount
    rw [hf]
    rfl
  have h2 : blocklistsCount o = 0 := by
    unfold blocklistsCount
    rw [hb]
    rfl
  have h3 : countEstimate o = 0 := by
    unfold countEstimate
    rw [h1, h2]
    rfl
  have h4 : targetCacheSizeBytes folderMaxCacheSize o = 0 := by
    unfold targetCacheSizeBytes
    rw [h3]
    have h5 : wrap64 (128 * 0) = 0 := by decide
    rw [h5]
    omega
  have h6 : targetCacheSizeKB folderMaxCacheSize o = 0 := by
    unfold targetCacheSizeKB
    rw [h4]
    decide
  refine ⟨h3, h6, ?_, rfl⟩
  rw [execStmts_tune, h6]
  decide

/-- Witness for C3: `files` fails at prepare, `blocklists` fetches a value the
`int64` assertion rejects. -/
theorem folder_hook_both_queries_fail_witness :
    countEstimate ⟨.prepareErr, .fetchOk .other⟩ = 0 ∧
    execStmts (tuneFolderCacheSizeEvents (fun _ => true) 12800000
      ⟨.prepareErr, .fetchOk .other⟩) = [] :=
  ⟨(folder_hook_both_queries_fail 1 12800000 (fun _ => true)
      ⟨.prepareErr, .fetchOk .other⟩ (by decide) (by decide) (by decide)).1,
   (folder_hook_both_queries_fail 1 12800000 (fun _ => true)
      ⟨.prepareErr, .fetchOk .other⟩ (by decide) (by decide) (by decide)).2.2.1⟩

/-- C4: when the kilobyte target does not exceed 2000 the estimator issues no
directive, even when both statistics queries succeeded; the override is
executed if and only if the kilobyte target is strictly greater than 2000. -/
theorem folder_cache_threshold_guard (folderMaxCacheSize : Int)
    (execOk : String → Bool) (o : FolderStatOutcomes) :
    (targetCacheSizeKB folderMaxCacheSize o ≤ 2000 →
      execStmts (tuneFolderCacheSizeEvents execOk folderMaxCacheSize o) = []) ∧
    (execStmts (tuneFolderCacheSizeEvents execOk folderMaxCacheSize o) ≠ [] ↔
      2000 < targetCacheSizeKB folderMaxCacheSize o) := by
  refine ⟨?_, execStmts_tune_ne_nil_iff execOk folderMaxCacheSize o⟩
  intro h
  rw [execStmts_tune, if_neg (by omega)]

/-- Witness for C4: both queries succeed with counts 11719 and 0 so the
kilobyte target is 1500, below the threshold, and no directive is issued. -/
theorem folder_cache_threshold_guard_witness :
    targetCacheSizeKB 12800000 ⟨.fetchOk (.int64 11719), .fetchOk (.int64 0)⟩ = 1500 ∧
    execStmts (tuneFolderCacheSizeEvents (fun _ => true) 12800000
      ⟨.fetchOk (.int64 11719), .fetchOk (.int64 0)⟩) = [] :=
  ⟨by decide,
   (folder_cache_threshold_guard 12800000 (fun _ => true)
      ⟨.fetchOk (.int64 11719), .fetchOk (.int64 0)⟩).1 (by decide)⟩

/-- C5 counterexample: with a fetched `files` count of `2 ^ 57` and ceiling
`12800000`, the exact product `128 * 2 ^ 57` exceeds the ceiling, so the claim
says the directive with the clamped value `12800` is issued — but Go's `int64`
multiplication wraps `128 * 2 ^ 57` to `0`, the kilobyte target is `0`, and no
directive is issued at all. -/
theorem folder_cache_clamp_overflow_cx :
    12800000 < 128 * countEstimate ⟨.fetchOk (.int64 (2 ^ 57)), .fetchOk (.int64 0)⟩ ∧
    execStmts (tuneFolderCacheSizeEvents (fun _ => true) 12800000
      ⟨.fetchOk (.int64 (2 ^ 57)), .fetchOk (.int64 0)⟩) = [] := by
  decide

/-- C5 amended: for every pair of table counts whose row-count estimate `n`
keeps `128 * n` inside the signed 64-bit range, `targetBytes` is the exact
`min (128 * n) folderMaxCacheSize`, the issued statement (when the threshold
is cleared) embeds exactly `min (128 * n) folderMaxCacheSize / 1000` under
truncating division, and in particular when `128 * n` exceeds the ceiling the
embedded value is `folderMaxCacheSize / 1000`, never the raw product. -/
theorem folder_cache_clamp_within_int64 (folderMaxCacheSize : Int)
    (execOk : String → Bool) (o : FolderStatOutcomes)
    (hlo : -9223372036854775808 ≤ 128 * countEstimate o)
    (hhi : 128 * countEstimate o < 9223372036854775808) :
    targetCacheSizeBytes folderMaxCacheSize o =
      min (128 * countEstimate o) folderMaxCacheSize ∧
    execStmts (tuneFolderCacheSizeEvents execOk folderMaxCacheSize o) =
      (if 2000 < Int.tdiv (min (128 * countEstimate o) folderMaxCacheSize) 1000 then
        [cachePragma (Int.tdiv (min (128 * countEstimate o) folderMaxCacheSize) 1000)]
      else []) ∧
    (folderMaxCacheSize < 128 * countEstimate o →
      2000 < targetCacheSizeKB folderMaxCacheSize o →
      execStmts (tuneFolderCacheSizeEvents execOk folderMaxCacheSize o) =
        [cachePragma (Int.tdiv folderMaxCacheSize 1000)]) := by
  have hb : targetCacheSizeBytes folderMaxCacheSize o =
      min (128 * countEstimate o) folderMaxCacheSize := by
    unfold targetCacheSizeBytes
    rw [wrap64_eq_self _ hlo hhi]
  have hk : targetCacheSizeKB folderMaxCacheSize o =
      Int.tdiv (min (128 * countEstimate o) folderMaxCacheSize) 1000 := by
    unfold targetCacheSizeKB
    rw [hb]
  refine ⟨hb, ?_, ?_⟩
  · rw [execStmts_tune, hk]
  · intro hclamp hthr
    have hmin : min (128 * countEstimate o) folderMaxCacheSize = folderMaxCacheSize := by
      omega
    rw [execStmts_tune, if_pos hthr, hk, hmin]

/-- Witness for C5: estimate `2 ^ 20` with ceiling `12800000`; the raw product
`134217728` exceeds the ceiling and the issued value is the clamped
`12800000 / 1000 = 12800`. -/
theorem folder_cache_clamp_within_int64_witness :
    execStmts (tuneFolderCacheSizeEvents (fun _ => true) 12800000
      ⟨.fetchOk (.int64 1048576), .fetchOk (.int64 40000)⟩) =
      [cachePragma (Int.tdiv 12800000 1000)] :=
  (folder_cache_clamp_within_int64 12800000 (fun _ => true)
      ⟨.fetchOk (.int64 1048576), .fetchOk (.int64 40000)⟩
      (by decide) (by decide)).2.2 (by decide) (by decide)

/-- C6: a failure in one table's statistics query leaves that table's count at
zero only, never alters the count obtained for the other table, and never
aborts the estimation: the trace still issues the directive exactly when the
max-clamp-divide computation on the obtained values clears the threshold. -/
theorem folder_cache_per_table_isolation (folderMaxCacheSize : Int)
    (execOk : String → Bool) (o o' : FolderStatOutcomes) :
    ((tableStep "files" o.files).1 = none → filesCount o = 0) ∧
    ((tableStep "blocklists" o.blocklists).1 = none → blocklistsCount o = 0) ∧
    (o.blocklists = o'.blocklists → blocklistsCount o = blocklistsCount o') ∧
    (o.files = o'.files → filesCount o = filesCount o') ∧
    (execStmts (tuneFolderCacheSizeEvents execOk folderMaxCacheSize o) ≠ [] ↔
      2000 < Int.tdiv
        (min (wrap64 (128 * max (filesCount o) (blocklistsCount o))) folderMaxCacheSize)
        1000) := by
  refine ⟨?_, ?_, ?_, ?_, execStmts_tune_ne_nil_iff execOk folderMaxCacheSize o⟩
  · intro h
    unfold filesCount
    rw [h]
    rfl
  · intro h
    unfold blocklistsCount
    rw [h]
    rfl
  · intro h
    unfold blocklistsCount
    rw [h]
  · intro h
    unfold filesCount
    rw [h]

/-- Witness for C6: the `files` step fails at `rows.Next` while `blocklists`
obtains 5; the failed table records zero, and the other table's count agrees
with a run whose `files` step fails elsewhere (at prepare). -/
theorem folder_cache_per_table_isolation_witness :
    filesCount ⟨.fetchErr, .fetchOk (.int64 5)⟩ = 0 ∧
    blocklistsCount ⟨.fetchErr, .fetchOk (.int64 5)⟩ =
      blocklistsCount ⟨.prepareErr, .fetchOk (.int64 5)⟩ :=
  ⟨(folder_cache_per_table_isolation 12800000 (fun _ => true)
      ⟨.fetchErr, .fetchOk (.int64 5)⟩ ⟨.prepareErr, .fetchOk (.int64 5)⟩).1 (by decide),
   (folder_cache_per_table_isolation 12800000 (fun _ => true)
      ⟨.fetchErr, .fetchOk (.int64 5)⟩ ⟨.prepareErr, .fetchOk (.int64 5)⟩).2.2.1 (by decide)⟩

/-- C7: the folder connect hook executes the static profile's directives in
exactly the listed order — `journal_mode` first through `cache_spill` last —
via `conn.Exec`, invokes the estimator only after all static directives, and
when the dynamic cache-size override is issued it is the last statement
executed on the connection. -/
theorem folder_hook_directive_order (applicationIDFolder folderMaxCacheSize : Int)
    (execOk : String → Bool) (o : FolderStatOutcomes) :
    folder_pragmas applicationIDFolder =
      ["journal_mode = WAL", "optimize = 0x10002", "auto_vacuum = INCREMENTAL",
       "application_id = " ++ toString applicationIDFolder, "busy_timeout = 5000",
       "temp_store = MEMORY", "synchronous = NORMAL", "journal_size_limit = 8388608",
       "cache_spill = FALSE"] ∧
    (folderConnectHook applicationIDFolder execOk folderMaxCacheSize o).1 =
      (folder_pragmas applicationIDFolder).map
          (fun p => Event.exec (pragmaStmt p) (execOk (pragmaStmt p))) ++
        tuneFolderCacheSizeEvents execOk folderMaxCacheSize o ∧
    (2000 < targetCacheSizeKB folderMaxCacheSize o →
      execStmts (folderConnectHook applicationIDFolder execOk folderMaxCacheSize o).1 =
        (folder_pragmas applicationIDFolder).map pragmaStmt ++
          [cachePragma (targetCacheSizeKB folderMaxCacheSize o)] ∧
      (execStmts (folderConnectHook applicationIDFolder execOk folderMaxCacheSize o).1).getLast? =
        some (cachePragma (targetCacheSizeKB folderMaxCacheSize o))) := by
  refine ⟨rfl, rfl, fun h => ?_⟩
  have he : execStmts (folderConnectHook applicationIDFolder execOk folderMaxCacheSize o).1 =
      (folder_pragmas applicationIDFolder).map pragmaStmt ++
        [cachePragma (targetCacheSizeKB folderMaxCacheSize o)] := by
    show execStmts ((folder_pragmas applicationIDFolder).map
        (fun p => Event.exec (pragmaStmt p) (execOk (pragmaStmt p))) ++
      tuneFolderCacheSizeEvents execOk folderMaxCacheSize o) = _
    rw [execStmts_append, execStmts_exec_map, execStmts_tune, if_pos h]
  exact ⟨he, by rw [he]; exact List.getLast?_concat _⟩

/-- Witness for C7 at the C1 input: the dynamic directive is the last executed
statement. -/
theorem folder_hook_directive_order_witness :
    (execStmts (folderConnectHook 1 (fun _ => true) 12800000
        ⟨.fetchOk (.int64 100000), .fetchOk (.int64 40000)⟩).1).getLast? =
      some (cachePragma (targetCacheSizeKB 12800000
        ⟨.fetchOk (.int64 100000), .fetchOk (.int64 40000)⟩)) :=
  ((folder_hook_directive_order 1 12800000 (fun _ => true)
      ⟨.fetchOk (.int64 100000), .fetchOk (.int64 40000)⟩).2.2 (by decide)).2

/-- C8: the main connect hook's trace is exactly the four `conn.Exec` calls of
the static main profile — journal mode, optimize hint, incremental
auto-vacuum, application identity tag, in that order — for every outcome of
the execute primitive: it never prepares a statement or opens a cursor (so it
never invokes the adaptive cache estimator) and issues no other statement. -/
theorem main_hook_exact_directives (applicationIDMain : Int) (execOk : String → Bool) :
    (mainConnectHook applicationIDMain execOk).1 =
      [Event.exec "PRAGMA journal_mode = WAL" (execOk "PRAGMA journal_mode = WAL"),
       Event.exec "PRAGMA optimize = 0x10002" (execOk "PRAGMA optimize = 0x10002"),
       Event.exec "PRAGMA auto_vacuum = INCREMENTAL" (execOk "PRAGMA auto_vacuum = INCREMENTAL"),
       Event.exec ("PRAGMA application_id = " ++ toString applicationIDMain)
         (execOk ("PRAGMA application_id = " ++ toString applicationIDMain))] ∧
    execStmts (mainConnectHook applicationIDMain execOk).1 =
      ["PRAGMA journal_mode = WAL", "PRAGMA optimize = 0x10002",
       "PRAGMA auto_vacuum = INCREMENTAL",
       "PRAGMA application_id = " ++ toString applicationIDMain] ∧
    stmtsOpened (mainConnectHook applicationIDMain execOk).1 = 0 ∧
    cursorsOpened (mainConnectHook applicationIDMain execOk).1 = 0 := by
  refine ⟨rfl, rfl, rfl, rfl⟩

/-- C9: neither connect hook ever fails the connection: for every outcome of
the engine's execute and query primitives, both hooks return `nil`. -/
theorem hooks_never_fail_connection (applicationIDMain applicationIDFolder : Int)
    (folderMaxCacheSize : Int) (execOkMain execOkFolder : String → Bool)
    (o : FolderStatOutcomes) :
    (mainConnectHook applicationIDMain execOkMain).2 = none ∧
    (folderConnectHook applicationIDFolder execOkFolder folderMaxCacheSize o).2 = none :=
  ⟨rfl, rfl⟩

/-- C10 counterexample: both fetched counts equal `15633 - 2 ^ 57`, so the
row-count estimate is negative — yet Go's `int64` multiplication wraps
`128 * (15633 - 2 ^ 57)` to `2001024`, the kilobyte target is `2001 > 2000`,
and the override `PRAGMA cache_size = -2001` is executed, contradicting both
the claim that no override is issued for negative estimates and the claim that
`15633` is the smallest triggering estimate. -/
theorem folder_cache_negative_estimate_cx :
    countEstimate ⟨.fetchOk (.int64 (15633 - 2 ^ 57)),
      .fetchOk (.int64 (15633 - 2 ^ 57))⟩ < 0 ∧
    execStmts (tuneFolderCacheSizeEvents (fun _ => true) 12800000
      ⟨.fetchOk (.int64 (15633 - 2 ^ 57)), .fetchOk (.int64 (15633 - 2 ^ 57))⟩) =
      [cachePragma 2001] := by
  decide

/-- C10 amended: every statement the estimator executes is the well-formed
`PRAGMA cache_size = -V` with `V` the computed kilobyte target, which is then
strictly greater than 2000 and at most `folderMaxCacheSize / 1000`; and for
every estimate whose product `128 * n` does not underflow the signed 64-bit
range, no override is issued when `n ≤ 0`, none is issued for
`0 ≤ n < 15633`, and `n = 15633` triggers the override `PRAGMA
cache_size = -2001` as soon as the ceiling is at least `2001000` bytes. -/
theorem folder_cache_directive_bounds (folderMaxCacheSize : Int)
    (execOk : String → Bool) (o : FolderStatOutcomes) :
    (∀ s ∈ execStmts (tuneFolderCacheSizeEvents execOk folderMaxCacheSize o),
      s = cachePragma (targetCacheSizeKB folderMaxCacheSize o) ∧
      2000 < targetCacheSizeKB folderMaxCacheSize o ∧
      targetCacheSizeKB folderMaxCacheSize o ≤ Int.tdiv folderMaxCacheSize 1000) ∧
    (-9223372036854775808 ≤ 128 * countEstimate o → countEstimate o ≤ 0 →
      execStmts (tuneFolderCacheSizeEvents execOk folderMaxCacheSize o) = []) ∧
    (0 ≤ countEstimate o → countEstimate o < 15633 →
      execStmts (tuneFolderCacheSizeEvents execOk folderMaxCacheSize o) = []) ∧
    (countEstimate o = 15633 → 2001000 ≤ folderMaxCacheSize →
      execStmts (tuneFolderCacheSizeEvents execOk folderMaxCacheSize o) =
        [cachePragma 2001]) := by
  refine ⟨?_, ?_, ?_, ?_⟩
  · intro s hs
    rw [execStmts_tune] at hs
    by_cases h : 2000 < targetCacheSizeKB folderMaxCacheSize o
    · rw [if_pos h] at hs
      have hsv : s = cachePragma (targetCacheSizeKB folderMaxCacheSize o) := by
        simpa using hs
      refine ⟨hsv, h, ?_⟩
      have hpos : 0 < targetCacheSizeBytes folderMaxCacheSize o := by
        by_contra hc
        have := tdiv1000_nonpos (a := targetCacheSizeBytes folderMaxCacheSize o) (by omega)
        unfold targetCacheSizeKB at h
        omega
      have hle : targetCacheSizeBytes folderMaxCacheSize o ≤ folderMaxCacheSize := by
        unfold targetCacheSizeBytes
        omega
      unfold targetCacheSizeKB
      exact tdiv1000_mono (by omega) hle
    · rw [if_neg h] at hs
      simp at hs
  · intro hlo hle
    have hw : wrap64 (128 * countEstimate o) = 128 * countEstimate o :=
      wrap64_eq_self _ hlo (by omega)
    have hk : targetCacheSizeKB folderMaxCacheSize o ≤ 2000 := by
      unfold targetCacheSizeKB targetCacheSizeBytes
      rw [hw]
      exact tdiv1000_le_2000 (by omega)
    rw [execStmts_tune, if_neg (by omega)]
  · intro h0 hlt
    have hw : wrap64 (128 * countEstimate o) = 128 * countEstimate o :=
      wrap64_eq_self _ (by omega) (by omega)
    have hk : targetCacheSizeKB folderMaxCacheSize o ≤ 2000 := by
      unfold targetCacheSizeKB targetCacheSizeBytes
      rw [hw]
      exact tdiv1000_le_2000 (by omega)
    rw [execStmts_tune, if_neg (by omega)]
  · intro hest hM
    have hw : wrap64 (128 * countEstimate o) = 128 * countEstimate o :=
      wrap64_eq_self _ (by rw [hest]; decide) (by rw [hest]; decide)
    have hk : targetCacheSizeKB folderMaxCacheSize o = 2001 := by
      unfold targetCacheSizeKB targetCacheSizeBytes
      rw [hw, hest]
      have hmin1 : (2001000 : Int) ≤ min (128 * 15633) folderMaxCacheSize := by omega
      have hmin2 : min ((128 : Int) * 15633) folderMaxCacheSize ≤ 2001024 := by omega
      rw [Int.tdiv_eq_ediv (by omega) (by omega)]
      omega
    rw [execStmts_tune, if_pos (by omega), hk]

/-- Witness for C10: estimate 15632 issues nothing, estimate 15633 issues
`PRAGMA cache_size = -2001`, and the nonpositive estimate from counts `-5`
and `-7` issues nothing. -/
theorem folder_cache_directive_bounds_witness :
    execStmts (tuneFolderCacheSizeEvents (fun _ => true) 12800000
      ⟨.fetchOk (.int64 15632), .fetchOk (.int64 0)⟩) = [] ∧
    execStmts (tuneFolderCacheSizeEvents (fun _ => true) 12800000
      ⟨.fetchOk (.int64 15633), .fetchOk (.int64 0)⟩) = [cachePragma 2001] ∧
    execStmts (tuneFolderCacheSizeEvents (fun _ => true) 12800000
      ⟨.fetchOk (.int64 (-5)), .fetchOk (.int64 (-7))⟩) = [] :=
  ⟨(folder_cache_directive_bounds 12800000 (fun _ => true)
      ⟨.fetchOk (.int64 15632), .fetchOk (.int64 0)⟩).2.2.1 (by decide) (by decide),
   (folder_cache_directive_bounds 12800000 (fun _ => true)
      ⟨.fetchOk (.int64 15633), .fetchOk (.int64 0)⟩).2.2.2 (by decide) (by decide),
   (folder_cache_directive_bounds 12800000 (fun _ => true)
      ⟨.fetchOk (.int64 (-5)), .fetchOk (.int64 (-7))⟩).2.1 (by decide) (by decide)⟩

end SyncthingSqlite
